import Mathlib

/-!
Shallow embedding of `blink::InspectorPerformanceAgent`
(src/WebKit/Source/core/inspector/InspectorPerformanceAgent.cpp).

Times and durations (C++ `double` seconds/timestamps) are modelled as `ℚ`;
counts (C++ unsigned counters) as `ℕ`.  The two reentrancy depth counters
`script_call_depth_` and `layout_depth_` are modelled as `ℤ`: the member
declarations live in the header, which is not in the source tree, and the
.cpp decrements them unconditionally (`--script_call_depth_`,
`--layout_depth_`) with no lower-bound guard, so the model must be able to
represent the value that an unmatched decrement produces.  A probe object
(`probe::CallFunction` etc.) is a per-call value created by the host; its
`CaptureStartTime()` stores the current time on the probe and `Duration()`
returns the elapsed time since the stored start (0 when never captured,
matching a default-initialised start time).
-/

/-- `protocol::Response`.  Every method of this agent returns `Response::OK()`;
the error constructor exists so that "reports success" is a real statement. -/
inductive Response where
  | OK : Response
  | ServerError : String → Response
deriving DecidableEq, Repr

/-- The mutable members of `InspectorPerformanceAgent`, plus the externally
observable effects of registration: `persistedEnabled` models the boolean
stored under `kPerformanceAgentEnabled` in `state_`, `hookRegistrations`
the number of times this agent is currently registered with
`instrumenting_agents_`, and `observerRegistrations` the number of times it
is currently registered as a task-time observer. -/
@[ext]
structure AgentState where
  enabled_ : Bool
  persistedEnabled : Bool
  hookRegistrations : ℕ
  observerRegistrations : ℕ
  script_call_depth_ : ℤ
  layout_depth_ : ℤ
  layout_count_ : ℕ
  recalc_style_count_ : ℕ
  layout_duration_ : ℚ
  recalc_style_duration_ : ℚ
  script_duration_ : ℚ
  task_duration_ : ℚ
  task_start_time_ : ℚ
deriving DecidableEq, Repr

/-- Modelled from the spec: the header with the member initialisers is not in
the source tree; the spec's data model gives construction values (`enabled`
false, all counters and accumulators zero, nothing registered). -/
def initialAgent : AgentState :=
  { enabled_ := false
    persistedEnabled := false
    hookRegistrations := 0
    observerRegistrations := 0
    script_call_depth_ := 0
    layout_depth_ := 0
    layout_count_ := 0
    recalc_style_count_ := 0
    layout_duration_ := 0
    recalc_style_duration_ := 0
    script_duration_ := 0
    task_duration_ := 0
    task_start_time_ := 0 }

/-- `InspectorPerformanceAgent::enable`. -/
def enable (s : AgentState) : AgentState × Response :=
  if s.enabled_ then (s, Response.OK)
  else
    ({ s with
        enabled_ := true
        persistedEnabled := true
        hookRegistrations := s.hookRegistrations + 1
        observerRegistrations := s.observerRegistrations + 1
        task_start_time_ := 0 }, Response.OK)

/-- `InspectorPerformanceAgent::disable`. -/
def disable (s : AgentState) : AgentState × Response :=
  if !s.enabled_ then (s, Response.OK)
  else
    ({ s with
        enabled_ := false
        persistedEnabled := false
        hookRegistrations := s.hookRegistrations - 1
        observerRegistrations := s.observerRegistrations - 1 }, Response.OK)

/-- `InspectorPerformanceAgent::Restore`. -/
def Restore (s : AgentState) : AgentState :=
  if s.persistedEnabled then (enable s).1 else s

/-- A probe object: `CaptureStartTime()` stores into `startTime`; a probe on
which it was never called carries the default-initialised start 0. -/
structure Probe where
  startTime : ℚ
deriving DecidableEq, Repr

/-- `Will(const probe::CallFunction&)`:
`if (!script_call_depth_++) probe.CaptureStartTime();` — the test is on the
value before the increment. -/
def willCallFunction (s : AgentState) (p : Probe) (now : ℚ) : AgentState × Probe :=
  if s.script_call_depth_ = 0 then
    ({ s with script_call_depth_ := s.script_call_depth_ + 1 }, { p with startTime := now })
  else
    ({ s with script_call_depth_ := s.script_call_depth_ + 1 }, p)

/-- `Did(const probe::CallFunction&)`:
`if (!--script_call_depth_) script_duration_ += probe.Duration();` — the test
is on the value after the decrement; `Duration()` is `now - startTime`. -/
def didCallFunction (s : AgentState) (p : Probe) (now : ℚ) : AgentState :=
  let s1 := { s with script_call_depth_ := s.script_call_depth_ - 1 }
  if s1.script_call_depth_ = 0 then
    { s1 with script_duration_ := s1.script_duration_ + (now - p.startTime) }
  else s1

/-- `Will(const probe::ExecuteScript&)`: same body as the `CallFunction`
hook, on the same shared `script_call_depth_`. -/
def willExecuteScript (s : AgentState) (p : Probe) (now : ℚ) : AgentState × Probe :=
  if s.script_call_depth_ = 0 then
    ({ s with script_call_depth_ := s.script_call_depth_ + 1 }, { p with startTime := now })
  else
    ({ s with script_call_depth_ := s.script_call_depth_ + 1 }, p)

/-- `Did(const probe::ExecuteScript&)`: same body as the `CallFunction`
hook, on the same shared `script_call_depth_` and `script_duration_`. -/
def didExecuteScript (s : AgentState) (p : Probe) (now : ℚ) : AgentState :=
  let s1 := { s with script_call_depth_ := s.script_call_depth_ - 1 }
  if s1.script_call_depth_ = 0 then
    { s1 with script_duration_ := s1.script_duration_ + (now - p.startTime) }
  else s1

/-- `Will(const probe::RecalculateStyle&)`: captures the start time
unconditionally; the agent state is untouched. -/
def willRecalculateStyle (p : Probe) (now : ℚ) : Probe :=
  { p with startTime := now }

/-- `Did(const probe::RecalculateStyle&)`: unconditionally accumulates the
probe's elapsed span and increments the count. -/
def didRecalculateStyle (s : AgentState) (p : Probe) (now : ℚ) : AgentState :=
  { s with
      recalc_style_duration_ := s.recalc_style_duration_ + (now - p.startTime)
      recalc_style_count_ := s.recalc_style_count_ + 1 }

/-- `Will(const probe::UpdateLayout&)`:
`if (!layout_depth_++) probe.CaptureStartTime();`. -/
def willUpdateLayout (s : AgentState) (p : Probe) (now : ℚ) : AgentState × Probe :=
  if s.layout_depth_ = 0 then
    ({ s with layout_depth_ := s.layout_depth_ + 1 }, { p with startTime := now })
  else
    ({ s with layout_depth_ := s.layout_depth_ + 1 }, p)

/-- `Did(const probe::UpdateLayout&)`:
`if (--layout_depth_) return;` then accumulate duration and count. -/
def didUpdateLayout (s : AgentState) (p : Probe) (now : ℚ) : AgentState :=
  let s1 := { s with layout_depth_ := s.layout_depth_ - 1 }
  if s1.layout_depth_ = 0 then
    { s1 with
        layout_duration_ := s1.layout_duration_ + (now - p.startTime)
        layout_count_ := s1.layout_count_ + 1 }
  else s1

/-- `InspectorPerformanceAgent::WillProcessTask`. -/
def willProcessTask (s : AgentState) (start_time : ℚ) : AgentState :=
  { s with task_start_time_ := start_time }

/-- `InspectorPerformanceAgent::DidProcessTask`. -/
def didProcessTask (s : AgentState) (start_time end_time : ℚ) : AgentState :=
  if s.task_start_time_ = start_time then
    { s with task_duration_ := s.task_duration_ + (end_time - start_time) }
  else s

/-- A probe begin/end or task event delivered by the host, carrying the
current wall time(s). -/
inductive Event where
  | beginCallFunction : ℚ → Event
  | endCallFunction : ℚ → Event
  | beginExecuteScript : ℚ → Event
  | endExecuteScript : ℚ → Event
  | beginRecalcStyle : ℚ → Event
  | endRecalcStyle : ℚ → Event
  | beginLayout : ℚ → Event
  | endLayout : ℚ → Event
  | willTask : ℚ → Event
  | didTask : ℚ → ℚ → Event
deriving DecidableEq, Repr

/-- The agent together with the live probe objects of each category.  Probe
objects are scoped to a call, so within one category they form a stack:
a begin event creates and pushes a fresh probe (start time default 0 until
`CaptureStartTime` runs), the matching end event pops it. -/
@[ext]
structure TraceState where
  agent : AgentState
  callFunctionProbes : List Probe
  executeScriptProbes : List Probe
  recalcStyleProbes : List Probe
  layoutProbes : List Probe
deriving DecidableEq, Repr

/-- Pop the innermost live probe; an end event that arrives with no live
probe (hook-registration race) sees a probe whose start was never captured. -/
def popProbe : List Probe → Probe × List Probe
  | [] => (Probe.mk 0, [])
  | p :: rest => (p, rest)

/-- One host event dispatched to the agent's hooks. -/
def step (ts : TraceState) (e : Event) : TraceState :=
  match e with
  | .beginCallFunction t =>
      let sp := willCallFunction ts.agent (Probe.mk 0) t
      { ts with agent := sp.1, callFunctionProbes := sp.2 :: ts.callFunctionProbes }
  | .endCallFunction t =>
      let pr := popProbe ts.callFunctionProbes
      { ts with agent := didCallFunction ts.agent pr.1 t, callFunctionProbes := pr.2 }
  | .beginExecuteScript t =>
      let sp := willExecuteScript ts.agent (Probe.mk 0) t
      { ts with agent := sp.1, executeScriptProbes := sp.2 :: ts.executeScriptProbes }
  | .endExecuteScript t =>
      let pr := popProbe ts.executeScriptProbes
      { ts with agent := didExecuteScript ts.agent pr.1 t, executeScriptProbes := pr.2 }
  | .beginRecalcStyle t =>
      let p := willRecalculateStyle (Probe.mk 0) t
      { ts with recalcStyleProbes := p :: ts.recalcStyleProbes }
  | .endRecalcStyle t =>
      let pr := popProbe ts.recalcStyleProbes
      { ts with agent := didRecalculateStyle ts.agent pr.1 t, recalcStyleProbes := pr.2 }
  | .beginLayout t =>
      let sp := willUpdateLayout ts.agent (Probe.mk 0) t
      { ts with agent := sp.1, layoutProbes := sp.2 :: ts.layoutProbes }
  | .endLayout t =>
      let pr := popProbe ts.layoutProbes
      { ts with agent := didUpdateLayout ts.agent pr.1 t, layoutProbes := pr.2 }
  | .willTask t =>
      { ts with agent := willProcessTask ts.agent t }
  | .didTask t1 t2 =>
      { ts with agent := didProcessTask ts.agent t1 t2 }

/-- Run a sequence of host events. -/
def run (es : List Event) (ts : TraceState) : TraceState :=
  es.foldl step ts

/-- Trace state of a freshly enabled agent with no live probes. -/
def initialTrace : TraceState :=
  { agent := (enable initialAgent).1
    callFunctionProbes := []
    executeScriptProbes := []
    recalcStyleProbes := []
    layoutProbes := [] }

/-- A metric entry (`protocol::Performance::Metric`): a name and a value. -/
structure Metric where
  name : String
  value : ℚ
deriving DecidableEq, Repr

/-- The anonymous-namespace helper `AppendMetric`. -/
def AppendMetric (container : List Metric) (n : String) (v : ℚ) : List Metric :=
  container ++ [Metric.mk n v]

/-- The external collaborators `getMetrics` reads: the instance-counter
provider (`INSTANCE_COUNTERS_LIST` names, not yet suffixed, with their
`InstanceCounters::CounterValue`, in enumeration order) and the root frame's
document when available, as the pair
(`PaintTiming::FirstMeaningfulPaint`, `DocumentTiming::DomContentLoadedEventStart`). -/
structure Host where
  instanceCounters : List (String × ℚ)
  document : Option (ℚ × ℚ)
deriving DecidableEq, Repr

/-- `InspectorPerformanceAgent::getMetrics`, built by the same sequence of
`AppendMetric` calls as the source.  It returns the (unchanged) agent state,
the metric list written to `*out_result`, and the response. -/
def getMetrics (s : AgentState) (host : Host) : AgentState × List Metric × Response :=
  if !s.enabled_ then (s, [], Response.OK)
  else
    let result : List Metric := []
    let result := host.instanceCounters.foldl
      (fun acc nv => AppendMetric acc (nv.1 ++ "Count") nv.2) result
    let result := AppendMetric result "LayoutCount" (s.layout_count_ : ℚ)
    let result := AppendMetric result "RecalcStyleCount" (s.recalc_style_count_ : ℚ)
    let result := AppendMetric result "LayoutDuration" s.layout_duration_
    let result := AppendMetric result "RecalcStyleDuration" s.recalc_style_duration_
    let result := AppendMetric result "ScriptDuration" s.script_duration_
    let result := AppendMetric result "TaskDuration" s.task_duration_
    let result :=
      match host.document with
      | some dt =>
          AppendMetric (AppendMetric result "FirstMeaningfulPaint" dt.1) "DomContentLoaded" dt.2
      | none => result
    (s, result, Response.OK)

mutual
/-- A well-nested span of one category: a begin event at `tBegin`, the nested
inner spans, and the matching end event at `tEnd`. -/
inductive Span where
  | mk : ℚ → SpanList → ℚ → Span
/-- A sequence of adjacent well-nested spans. -/
inductive SpanList where
  | nil : SpanList
  | cons : Span → SpanList → SpanList
end

mutual
/-- The layout begin/end events a span emits, in order. -/
def layoutEvents : Span → List Event
  | .mk b cs e => Event.beginLayout b :: (layoutEventsList cs ++ [Event.endLayout e])
/-- The layout events of a sequence of spans. -/
def layoutEventsList : SpanList → List Event
  | .nil => []
  | .cons s rest => layoutEvents s ++ layoutEventsList rest
end

mutual
/-- The style-recalculation begin/end events a span emits, in order. -/
def recalcEvents : Span → List Event
  | .mk b cs e => Event.beginRecalcStyle b :: (recalcEventsList cs ++ [Event.endRecalcStyle e])
/-- The style-recalculation events of a sequence of spans. -/
def recalcEventsList : SpanList → List Event
  | .nil => []
  | .cons s rest => recalcEvents s ++ recalcEventsList rest
end

/-- Sum of the wall times of the outermost spans only. -/
def outerWallSum : SpanList → ℚ
  | .nil => 0
  | .cons (.mk b _ e) rest => (e - b) + outerWallSum rest

/-- Number of outermost spans. -/
def outerCount : SpanList → ℕ
  | .nil => 0
  | .cons _ rest => outerCount rest + 1

mutual
/-- Sum of the wall times of every span, nested ones included. -/
def totalWallSum : Span → ℚ
  | .mk b cs e => (e - b) + totalWallSumList cs
/-- Sum of the wall times of every span in a sequence, nested ones included. -/
def totalWallSumList : SpanList → ℚ
  | .nil => 0
  | .cons s rest => totalWallSum s + totalWallSumList rest
end

mutual
/-- Number of spans, nested ones included. -/
def totalCount : Span → ℕ
  | .mk _ cs _ => totalCountList cs + 1
/-- Number of spans in a sequence, nested ones included. -/
def totalCountList : SpanList → ℕ
  | .nil => 0
  | .cons s rest => totalCount s + totalCountList rest
end

theorem run_nil (ts : TraceState) : run [] ts = ts := rfl

theorem run_cons (e : Event) (es : List Event) (ts : TraceState) :
    run (e :: es) ts = run es (step ts e) := rfl

theorem run_append (xs ys : List Event) (ts : TraceState) :
    run (xs ++ ys) ts = run ys (run xs ts) := by
  simp [run, List.foldl_append]

mutual
/-- While a layout span is already open (`layout_depth_ ≥ 1`), the events of
a nested well-formed layout span leave the whole trace state unchanged. -/
theorem layoutRunNoop (s : Span) : ∀ ts : TraceState,
    1 ≤ ts.agent.layout_depth_ → run (layoutEvents s) ts = ts := by
  cases s with
  | mk b cs e =>
    intro ts h
    have hd : ¬ ts.agent.layout_depth_ = 0 := by omega
    rw [layoutEvents, run_cons, run_append]
    have h1 : step ts (Event.beginLayout b) =
        { ts with
            agent := { ts.agent with layout_depth_ := ts.agent.layout_depth_ + 1 }
            layoutProbes := Probe.mk 0 :: ts.layoutProbes } := by
      simp [step, willUpdateLayout, hd]
    rw [h1, layoutRunNoopList cs _ (by simp; omega)]
    have hd2 : ¬ ts.agent.layout_depth_ + 1 - 1 = 0 := by omega
    simp only [run, List.foldl_cons, List.foldl_nil, step, popProbe, didUpdateLayout, hd2,
      if_false]
    ext <;> simp

/-- While a layout span is already open, a sequence of nested well-formed
layout spans leaves the whole trace state unchanged. -/
theorem layoutRunNoopList (cs : SpanList) : ∀ ts : TraceState,
    1 ≤ ts.agent.layout_depth_ → run (layoutEventsList cs) ts = ts := by
  cases cs with
  | nil => intro ts _; rfl
  | cons s rest =>
    intro ts h
    rw [layoutEventsList, run_append, layoutRunNoop s ts h, layoutRunNoopList rest ts h]
end

mutual
/-- Running the events of one style-recalculation span adds the wall times of
the span and of all its nested spans to `recalc_style_duration_`, increments
`recalc_style_count_` once per span, and changes nothing else. -/
theorem recalcRun (s : Span) : ∀ ts : TraceState,
    run (recalcEvents s) ts =
      { ts with agent := { ts.agent with
          recalc_style_duration_ := ts.agent.recalc_style_duration_ + totalWallSum s
          recalc_style_count_ := ts.agent.recalc_style_count_ + totalCount s } } := by
  cases s with
  | mk b cs e =>
    intro ts
    rw [recalcEvents, run_cons, run_append]
    have h1 : step ts (Event.beginRecalcStyle b) =
        { ts with recalcStyleProbes := Probe.mk b :: ts.recalcStyleProbes } := by
      simp [step, willRecalculateStyle]
    rw [h1, recalcRunList cs _]
    simp only [run, List.foldl_cons, List.foldl_nil, step, popProbe, didRecalculateStyle]
    ext <;> simp [totalWallSum, totalCount] <;> ring

/-- Running the events of a sequence of style-recalculation spans adds the
wall times of every span, nested ones included, and counts each one. -/
theorem recalcRunList (cs : SpanList) : ∀ ts : TraceState,
    run (recalcEventsList cs) ts =
      { ts with agent := { ts.agent with
          recalc_style_duration_ := ts.agent.recalc_style_duration_ + totalWallSumList cs
          recalc_style_count_ := ts.agent.recalc_style_count_ + totalCountList cs } } := by
  cases cs with
  | nil =>
    intro ts
    rw [recalcEventsList, run_nil]
    ext <;> simp [totalWallSumList, totalCountList]
  | cons s rest =>
    intro ts
    rw [recalcEventsList, run_append, recalcRun s ts, recalcRunList rest _]
    ext <;> simp [totalWallSumList, totalCountList] <;> ring
end

/-- Running one complete layout span from an idle layout state (`depth = 0`)
adds exactly the outer wall time to `layout_duration_`, one to
`layout_count_`, and returns every other component unchanged. -/
theorem layoutRunSpan (b e : ℚ) (cs : SpanList) (ts : TraceState)
    (h : ts.agent.layout_depth_ = 0) :
    run (layoutEvents (Span.mk b cs e)) ts =
      { ts with agent := { ts.agent with
          layout_duration_ := ts.agent.layout_duration_ + (e - b)
          layout_count_ := ts.agent.layout_count_ + 1 } } := by
  rw [layoutEvents, run_cons, run_append]
  have h1 : step ts (Event.beginLayout b) =
      { ts with
          agent := { ts.agent with layout_depth_ := ts.agent.layout_depth_ + 1 }
          layoutProbes := Probe.mk b :: ts.layoutProbes } := by
    simp [step, willUpdateLayout, h]
  rw [h1, layoutRunNoopList cs _ (by simp; omega)]
  have h0 : ts.agent.layout_depth_ + 1 - 1 = 0 := by omega
  simp only [run, List.foldl_cons, List.foldl_nil, step, popProbe, didUpdateLayout, h0, if_true]
  ext <;> simp
  omega

/-- Running a sequence of complete layout spans from an idle layout state
adds the sum of the outermost wall times and one count per outermost span. -/
theorem layoutRunForest (cs : SpanList) : ∀ ts : TraceState,
    ts.agent.layout_depth_ = 0 →
    run (layoutEventsList cs) ts =
      { ts with agent := { ts.agent with
          layout_duration_ := ts.agent.layout_duration_ + outerWallSum cs
          layout_count_ := ts.agent.layout_count_ + outerCount cs } } := by
  cases cs with
  | nil =>
    intro ts h
    rw [layoutEventsList, run_nil]
    ext <;> simp [outerWallSum, outerCount]
  | cons s rest =>
    cases s with
    | mk b cs1 e =>
      intro ts h
      rw [layoutEventsList, run_append, layoutRunSpan b e cs1 ts h,
        layoutRunForest rest _ (by simpa using h)]
      ext <;> simp [outerWallSum, outerCount] <;> ring

/-- C1: for every well-nested sequence of layout begin/end events of the
reentrant-guarded layout category, starting with the category idle:
while the outermost span is still open, `layout_duration_` and
`layout_count_` are unchanged; when the outermost span closes, the duration
grows by exactly the outer span's wall time `e - b` and the count by exactly
one; and over a whole sequence of outermost spans the duration grows by the
sum of the outermost wall times and the count by the number of outermost
spans — never by the inner sub-intervals. -/
theorem layout_nested_transparent (ts : TraceState) (h : ts.agent.layout_depth_ = 0) :
    (∀ b : ℚ, ∀ cs : SpanList,
      (run (Event.beginLayout b :: layoutEventsList cs) ts).agent.layout_duration_
          = ts.agent.layout_duration_ ∧
        (run (Event.beginLayout b :: layoutEventsList cs) ts).agent.layout_count_
          = ts.agent.layout_count_) ∧
    (∀ b e : ℚ, ∀ cs : SpanList,
      (run (layoutEvents (Span.mk b cs e)) ts).agent.layout_duration_
          = ts.agent.layout_duration_ + (e - b) ∧
        (run (layoutEvents (Span.mk b cs e)) ts).agent.layout_count_
          = ts.agent.layout_count_ + 1 ∧
        (run (layoutEvents (Span.mk b cs e)) ts).agent.layout_depth_ = 0) ∧
    (∀ cs : SpanList,
      (run (layoutEventsList cs) ts).agent.layout_duration_
          = ts.agent.layout_duration_ + outerWallSum cs ∧
        (run (layoutEventsList cs) ts).agent.layout_count_
          = ts.agent.layout_count_ + outerCount cs) := by
  refine ⟨?_, ?_, ?_⟩
  · intro b cs
    rw [run_cons]
    have h1 : step ts (Event.beginLayout b) =
        { ts with
            agent := { ts.agent with layout_depth_ := ts.agent.layout_depth_ + 1 }
            layoutProbes := Probe.mk b :: ts.layoutProbes } := by
      simp [step, willUpdateLayout, h]
    rw [h1, layoutRunNoopList cs _ (by simp; omega)]
    exact ⟨rfl, rfl⟩
  · intro b e cs
    rw [layoutRunSpan b e cs ts h]
    simp; omega
  · intro cs
    rw [layoutRunForest cs ts h]
    simp

/-- Witness for C1 at the spec's concrete scenario: begin(Layout) at 0,
nested begin at 1, end at 3, end at 5 increases `LayoutDuration` by exactly
5 and `LayoutCount` by exactly 1. -/
theorem layout_nested_transparent_witness :
    initialTrace.agent.layout_depth_ = 0 ∧
      (run (layoutEvents (Span.mk 0 (SpanList.cons (Span.mk 1 SpanList.nil 3) SpanList.nil) 5))
        initialTrace).agent.layout_duration_ = initialTrace.agent.layout_duration_ + (5 - 0) ∧
      (run (layoutEvents (Span.mk 0 (SpanList.cons (Span.mk 1 SpanList.nil 3) SpanList.nil) 5))
        initialTrace).agent.layout_count_ = initialTrace.agent.layout_count_ + 1 :=
  ⟨by decide,
    ((layout_nested_transparent initialTrace (by decide)).2.1 0 5
      (SpanList.cons (Span.mk 1 SpanList.nil 3) SpanList.nil)).1,
    ((layout_nested_transparent initialTrace (by decide)).2.1 0 5
      (SpanList.cons (Span.mk 1 SpanList.nil 3) SpanList.nil)).2.1⟩

/-- C2: for the non-guarded style-recalculation category, every end event —
nested or not — adds that call's own elapsed span to
`recalc_style_duration_` and increments `recalc_style_count_` by one: over
any well-nested sequence of recalc-style spans the duration grows by the sum
of every span's own wall time (nested ones included) and the count by the
total number of spans; a single span, nested deeper or not, always
contributes exactly its own `e - b` and one count. -/
theorem recalc_style_counts_every_call (ts : TraceState) :
    (∀ cs : SpanList,
      (run (recalcEventsList cs) ts).agent.recalc_style_duration_
          = ts.agent.recalc_style_duration_ + totalWallSumList cs ∧
        (run (recalcEventsList cs) ts).agent.recalc_style_count_
          = ts.agent.recalc_style_count_ + totalCountList cs) ∧
    (∀ b e : ℚ, ∀ cs : SpanList,
      (run (recalcEvents (Span.mk b cs e)) ts).agent.recalc_style_duration_
          = ts.agent.recalc_style_duration_ + ((e - b) + totalWallSumList cs) ∧
        (run (recalcEvents (Span.mk b cs e)) ts).agent.recalc_style_count_
          = ts.agent.recalc_style_count_ + (totalCountList cs + 1)) := by
  constructor
  · intro cs
    rw [recalcRunList cs ts]
    exact ⟨rfl, rfl⟩
  · intro b e cs
    rw [recalcRun (Span.mk b cs e) ts]
    exact ⟨rfl, rfl⟩

/-- Witness for C2 at the spec's concrete scenario: begin(RecalcStyle) at 0,
nested begin at 1, end at 2 (closes inner), end at 4 (closes outer)
increases `RecalcStyleCount` by 2 and `RecalcStyleDuration` by
(2-1)+(4-0) = 5. -/
theorem recalc_style_counts_every_call_witness :
    (run (recalcEvents (Span.mk 0 (SpanList.cons (Span.mk 1 SpanList.nil 2) SpanList.nil) 4))
        initialTrace).agent.recalc_style_duration_
        = initialTrace.agent.recalc_style_duration_ + 5 ∧
      (run (recalcEvents (Span.mk 0 (SpanList.cons (Span.mk 1 SpanList.nil 2) SpanList.nil) 4))
        initialTrace).agent.recalc_style_count_
        = initialTrace.agent.recalc_style_count_ + 2 := by
  have h := (recalc_style_counts_every_call initialTrace).2 0 4
    (SpanList.cons (Span.mk 1 SpanList.nil 2) SpanList.nil)
  refine ⟨?_, ?_⟩
  · rw [h.1]; norm_num [totalWallSumList, totalWallSum]
  · rw [h.2]; norm_num [totalCountList, totalCount]

/-- C3: a task begin event unconditionally overwrites the stored
task-window start time (and changes nothing else); a task end event
`(start_time, end_time)` adds `end_time - start_time` to `task_duration_`
exactly when `start_time` equals the stored window, and on a mismatch the
whole state — in particular `task_duration_` — is unchanged; no error is
ever produced (both hooks return normally with no response at all, and the
trace-level events leave the probe stacks alone). -/
theorem task_window_pairing (s : AgentState) (start_time end_time : ℚ) :
    willProcessTask s start_time = { s with task_start_time_ := start_time } ∧
      (s.task_start_time_ = start_time →
        didProcessTask s start_time end_time =
          { s with task_duration_ := s.task_duration_ + (end_time - start_time) }) ∧
      (s.task_start_time_ ≠ start_time →
        didProcessTask s start_time end_time = s) := by
  refine ⟨rfl, ?_, ?_⟩
  · intro h
    rw [didProcessTask, if_pos h]
  · intro h
    rw [didProcessTask, if_neg h]

/-- Witness for C3 at the spec's concrete scenario: after `onTaskBegin(10)`,
`onTaskEnd(10, 15)` adds 5 to the task duration; after `onTaskBegin(20)`,
the mismatched `onTaskEnd(999, 1000)` leaves the state unchanged. -/
theorem task_window_pairing_witness :
    (willProcessTask (enable initialAgent).1 10).task_start_time_ = 10 ∧
      (didProcessTask (willProcessTask (enable initialAgent).1 10) 10 15).task_duration_ =
        (willProcessTask (enable initialAgent).1 10).task_duration_ + 5 ∧
      (willProcessTask (enable initialAgent).1 20).task_start_time_ ≠ 999 ∧
      didProcessTask (willProcessTask (enable initialAgent).1 20) 999 1000 =
        willProcessTask (enable initialAgent).1 20 := by
  have h1 := task_window_pairing (willProcessTask (enable initialAgent).1 10) 10 15
  have h2 := task_window_pairing (willProcessTask (enable initialAgent).1 20) 999 1000
  refine ⟨by decide, ?_, by decide, h2.2.2 (by decide)⟩
  rw [h1.2.1 (by decide)]
  norm_num

/-- Counterexample to C4: from a freshly enabled agent (layout depth 0), a
single layout end event with no outstanding begin drives `layout_depth_` to
-1 — the decrement in `Did(probe::UpdateLayout)` is unconditional — and a
well-formed begin/end pair executed right after it is lost: the pair's begin
runs at depth -1 so it captures nothing, and its end brings the depth back
to -1 without accumulating, leaving `layout_count_` at 0 and
`layout_duration_` at 0 where uncorrupted accounting would report count 1
and duration 3. -/
theorem layout_unmatched_end_cex :
    (run [Event.endLayout 1] initialTrace).agent.layout_depth_ = -1 ∧
      (run [Event.endLayout 1, Event.beginLayout 2, Event.endLayout 5]
        initialTrace).agent.layout_count_ = 0 ∧
      (run [Event.endLayout 1, Event.beginLayout 2, Event.endLayout 5]
        initialTrace).agent.layout_duration_ = 0 ∧
      (run [Event.beginLayout 2, Event.endLayout 5] initialTrace).agent.layout_count_ = 1 := by
  decide

/-- C4 (amended): the guarded depth counters are decremented
unconditionally, so an end event with no matching outstanding begin drives
the category's depth to -1 (below zero) — for layout and for the shared
script/function counter alike — and it does corrupt subsequent accounting:
a well-formed layout begin/end pair executed after such an unmatched end
leaves the agent exactly as it was except that `layout_depth_` is stuck at
-1; in particular the pair's duration and count are never accumulated. -/
theorem layout_unmatched_end_corrupts (ts : TraceState)
    (hL : ts.agent.layout_depth_ = 0) (hS : ts.agent.script_call_depth_ = 0)
    (t1 t2 t3 : ℚ) :
    (run [Event.endLayout t1] ts).agent.layout_depth_ = -1 ∧
      (run [Event.endCallFunction t1] ts).agent.script_call_depth_ = -1 ∧
      (run [Event.endLayout t1, Event.beginLayout t2, Event.endLayout t3] ts).agent
        = { ts.agent with layout_depth_ := -1 } := by
  have hne1 : ¬ ts.agent.layout_depth_ - 1 = 0 := by omega
  refine ⟨?_, ?_, ?_⟩
  · simp [run, step, didUpdateLayout, hne1, hL]
  · have hne : ¬ ts.agent.script_call_depth_ - 1 = 0 := by omega
    simp [run, step, didCallFunction, hne, hS]
  · have e1 : step ts (Event.endLayout t1) =
        { ts with
            agent := { ts.agent with layout_depth_ := ts.agent.layout_depth_ - 1 }
            layoutProbes := (popProbe ts.layoutProbes).2 } := by
      simp [step, didUpdateLayout, hne1]
    have hne2 : ¬ ts.agent.layout_depth_ - 1 = 0 := hne1
    rw [run_cons, e1, run_cons]
    have e2 : step
        { ts with
            agent := { ts.agent with layout_depth_ := ts.agent.layout_depth_ - 1 }
            layoutProbes := (popProbe ts.layoutProbes).2 } (Event.beginLayout t2) =
        { ts with
            agent := { ts.agent with layout_depth_ := ts.agent.layout_depth_ - 1 + 1 }
            layoutProbes := Probe.mk 0 :: (popProbe ts.layoutProbes).2 } := by
      simp [step, willUpdateLayout, hne2]
    rw [e2]
    have hne3 : ¬ ts.agent.layout_depth_ - 1 + 1 - 1 = 0 := by omega
    simp only [run, List.foldl_cons, List.foldl_nil, step, popProbe, didUpdateLayout, hne3,
      if_false]
    ext <;> simp
    omega

/-- Witness for the amended C4 at the counterexample's input: the unmatched
end at t=1 leaves depth -1 and the following begin(2)/end(5) pair changes
nothing else. -/
theorem layout_unmatched_end_corrupts_witness :
    initialTrace.agent.layout_depth_ = 0 ∧ initialTrace.agent.script_call_depth_ = 0 ∧
      (run [Event.endLayout 1] initialTrace).agent.layout_depth_ = -1 ∧
      (run [Event.endLayout 1, Event.beginLayout 2, Event.endLayout 5] initialTrace).agent
        = { initialTrace.agent with layout_depth_ := -1 } :=
  ⟨by decide, by decide,
    (layout_unmatched_end_corrupts initialTrace (by decide) (by decide) 1 2 5).1,
    (layout_unmatched_end_corrupts initialTrace (by decide) (by decide) 1 2 5).2.2⟩

/-- Counterexample to C5: function invocation does not have its own
independent depth or duration.  With a script-execution span open (begun at
t=0), a function-invocation begin at t=1 drives the shared
`script_call_depth_` to 2 — not the function category's "own" depth to 1 —
and the matching end at t=2 accumulates nothing: the shared
`script_duration_` is still 0 where an independent function-category
accumulator would have gained the call's own elapsed span of 1. -/
theorem script_shared_depth_cex :
    (run [Event.beginExecuteScript 0, Event.beginCallFunction 1]
        initialTrace).agent.script_call_depth_ = 2 ∧
      (run [Event.beginExecuteScript 0, Event.beginCallFunction 1, Event.endCallFunction 2]
        initialTrace).agent.script_duration_ = 0 ∧
      (run [Event.beginExecuteScript 0, Event.beginCallFunction 1, Event.endCallFunction 2]
        initialTrace).agent.script_call_depth_ = 1 := by
  decide

/-- C5 (amended): function invocation and script execution share one depth
counter (`script_call_depth_`) and one accumulator (`script_duration_`), so
a function-invocation begin/end pair inside an open script-execution span is
treated as a nested call of the shared category: it captures no start time
and accumulates nothing, leaving the shared duration unchanged and the
shared depth back at 1.  The remaining categories are genuinely
independent: a layout begin/end pair inside an open script-execution span
still accumulates its own elapsed span into `layout_duration_` and
increments `layout_count_`, leaving the script accumulator alone. -/
theorem script_shared_depth_layout_independent (ts : TraceState)
    (hS : ts.agent.script_call_depth_ = 0) (hL : ts.agent.layout_depth_ = 0)
    (t0 t1 t2 : ℚ) :
    ((run [Event.beginExecuteScript t0, Event.beginCallFunction t1, Event.endCallFunction t2]
        ts).agent.script_duration_ = ts.agent.script_duration_ ∧
      (run [Event.beginExecuteScript t0, Event.beginCallFunction t1, Event.endCallFunction t2]
        ts).agent.script_call_depth_ = 1) ∧
      ((run [Event.beginExecuteScript t0, Event.beginLayout t1, Event.endLayout t2]
          ts).agent.layout_duration_ = ts.agent.layout_duration_ + (t2 - t1) ∧
        (run [Event.beginExecuteScript t0, Event.beginLayout t1, Event.endLayout t2]
          ts).agent.layout_count_ = ts.agent.layout_count_ + 1 ∧
        (run [Event.beginExecuteScript t0, Event.beginLayout t1, Event.endLayout t2]
          ts).agent.script_duration_ = ts.agent.script_duration_) := by
  constructor
  · constructor <;>
      simp [run, step, willExecuteScript, willCallFunction, didCallFunction, popProbe, hS]
  · refine ⟨?_, ?_, ?_⟩ <;>
      simp [run, step, willExecuteScript, willUpdateLayout, didUpdateLayout, popProbe, hS, hL]

/-- Witness for the amended C5 at the counterexample's input (t=0, 1, 2):
the nested function call adds nothing to the shared duration, while a
layout pair nested in the same way gains its own span of 1. -/
theorem script_shared_depth_layout_independent_witness :
    initialTrace.agent.script_call_depth_ = 0 ∧ initialTrace.agent.layout_depth_ = 0 ∧
      (run [Event.beginExecuteScript 0, Event.beginCallFunction 1, Event.endCallFunction 2]
        initialTrace).agent.script_duration_ = initialTrace.agent.script_duration_ ∧
      (run [Event.beginExecuteScript 0, Event.beginLayout 1, Event.endLayout 2]
        initialTrace).agent.layout_duration_ = initialTrace.agent.layout_duration_ + (2 - 1) :=
  ⟨by decide, by decide,
    (script_shared_depth_layout_independent initialTrace (by decide) (by decide) 0 1 2).1.1,
    (script_shared_depth_layout_independent initialTrace (by decide) (by decide) 0 1 2).2.1⟩

theorem foldl_appendMetric (l : List (String × ℚ)) (acc : List Metric) :
    l.foldl (fun a nv => a ++ [Metric.mk (nv.1 ++ "Count") nv.2]) acc
      = acc ++ l.map (fun nv => Metric.mk (nv.1 ++ "Count") nv.2) := by
  induction l generalizing acc with
  | nil => simp
  | cons x xs ih =>
    rw [List.foldl_cons, ih]
    simp

/-- C6: when the agent is enabled, `getMetrics` returns the metric list in a
fixed order with exact names: first one metric per externally enumerated
instance counter in enumeration order (each name suffixed `"Count"`, value
verbatim), then the six fixed metrics `"LayoutCount"`, `"RecalcStyleCount"`,
`"LayoutDuration"`, `"RecalcStyleDuration"`, `"ScriptDuration"`,
`"TaskDuration"` with values taken verbatim from the category counters, then
`"FirstMeaningfulPaint"` and `"DomContentLoaded"` exactly when a document is
available; with no document those two metrics are omitted entirely — the
list simply ends after `"TaskDuration"` — rather than emitted as zero or
null. -/
theorem getMetrics_fixed_order (s : AgentState) (host : Host) (h : s.enabled_ = true) :
    (getMetrics s host).2.1 =
      host.instanceCounters.map (fun nv => Metric.mk (nv.1 ++ "Count") nv.2)
        ++ [Metric.mk "LayoutCount" (s.layout_count_ : ℚ),
            Metric.mk "RecalcStyleCount" (s.recalc_style_count_ : ℚ),
            Metric.mk "LayoutDuration" s.layout_duration_,
            Metric.mk "RecalcStyleDuration" s.recalc_style_duration_,
            Metric.mk "ScriptDuration" s.script_duration_,
            Metric.mk "TaskDuration" s.task_duration_]
        ++ (match host.document with
            | some dt =>
                [Metric.mk "FirstMeaningfulPaint" dt.1, Metric.mk "DomContentLoaded" dt.2]
            | none => []) ∧
      (host.document = none →
        (getMetrics s host).2.1 =
          host.instanceCounters.map (fun nv => Metric.mk (nv.1 ++ "Count") nv.2)
            ++ [Metric.mk "LayoutCount" (s.layout_count_ : ℚ),
                Metric.mk "RecalcStyleCount" (s.recalc_style_count_ : ℚ),
                Metric.mk "LayoutDuration" s.layout_duration_,
                Metric.mk "RecalcStyleDuration" s.recalc_style_duration_,
                Metric.mk "ScriptDuration" s.script_duration_,
                Metric.mk "TaskDuration" s.task_duration_]) := by
  have main : (getMetrics s host).2.1 =
      host.instanceCounters.map (fun nv => Metric.mk (nv.1 ++ "Count") nv.2)
        ++ [Metric.mk "LayoutCount" (s.layout_count_ : ℚ),
            Metric.mk "RecalcStyleCount" (s.recalc_style_count_ : ℚ),
            Metric.mk "LayoutDuration" s.layout_duration_,
            Metric.mk "RecalcStyleDuration" s.recalc_style_duration_,
            Metric.mk "ScriptDuration" s.script_duration_,
            Metric.mk "TaskDuration" s.task_duration_]
        ++ (match host.document with
            | some dt =>
                [Metric.mk "FirstMeaningfulPaint" dt.1, Metric.mk "DomContentLoaded" dt.2]
            | none => []) := by
    cases hd : host.document with
    | none => simp [getMetrics, h, hd, foldl_appendMetric, AppendMetric]
    | some dt => simp [getMetrics, h, hd, foldl_appendMetric, AppendMetric]
  refine ⟨main, fun hd => ?_⟩
  rw [main, hd]
  simp

/-- Witness for C6 on a concrete enabled state and host: two instance
counters, one accumulating agent, once with and once without a document. -/
theorem getMetrics_fixed_order_witness :
    ((enable initialAgent).1.enabled_ = true) ∧
      (getMetrics (enable initialAgent).1
          (Host.mk [("Document", 3), ("Frame", 2)] (some (7, 9)))).2.1 =
        [Metric.mk "DocumentCount" 3, Metric.mk "FrameCount" 2,
          Metric.mk "LayoutCount" 0, Metric.mk "RecalcStyleCount" 0,
          Metric.mk "LayoutDuration" 0, Metric.mk "RecalcStyleDuration" 0,
          Metric.mk "ScriptDuration" 0, Metric.mk "TaskDuration" 0,
          Metric.mk "FirstMeaningfulPaint" 7, Metric.mk "DomContentLoaded" 9] ∧
      (getMetrics (enable initialAgent).1
          (Host.mk [("Document", 3), ("Frame", 2)] none)).2.1 =
        [Metric.mk "DocumentCount" 3, Metric.mk "FrameCount" 2,
          Metric.mk "LayoutCount" 0, Metric.mk "RecalcStyleCount" 0,
          Metric.mk "LayoutDuration" 0, Metric.mk "RecalcStyleDuration" 0,
          Metric.mk "ScriptDuration" 0, Metric.mk "TaskDuration" 0] := by
  refine ⟨rfl, ?_, ?_⟩
  · rw [(getMetrics_fixed_order (enable initialAgent).1
      (Host.mk [("Document", 3), ("Frame", 2)] (some (7, 9))) rfl).1]
    rfl
  · rw [(getMetrics_fixed_order (enable initialAgent).1
      (Host.mk [("Document", 3), ("Frame", 2)] none) rfl).2 rfl]
    rfl

/-- C7: whenever the agent is disabled, `getMetrics` returns an empty
ordered list and success, leaves the state exactly as it was, and is
independent of every external collaborator (the same result for any two
hosts — it makes no collaborator calls). -/
theorem getMetrics_disabled_empty (s : AgentState) (host host2 : Host)
    (h : s.enabled_ = false) :
    getMetrics s host = (s, [], Response.OK) ∧ getMetrics s host = getMetrics s host2 := by
  constructor <;> simp [getMetrics, h]

/-- Witness for C7: a freshly constructed agent is disabled and returns the
empty list for two visibly different hosts. -/
theorem getMetrics_disabled_empty_witness :
    initialAgent.enabled_ = false ∧
      getMetrics initialAgent (Host.mk [("Node", 42)] (some (1, 2)))
        = (initialAgent, [], Response.OK) ∧
      getMetrics initialAgent (Host.mk [("Node", 42)] (some (1, 2)))
        = getMetrics initialAgent (Host.mk [] none) :=
  ⟨rfl,
    (getMetrics_disabled_empty initialAgent (Host.mk [("Node", 42)] (some (1, 2)))
      (Host.mk [] none) rfl).1,
    (getMetrics_disabled_empty initialAgent (Host.mk [("Node", 42)] (some (1, 2)))
      (Host.mk [] none) rfl).2⟩

/-- C8: `enable` always reports success; on an already enabled agent it has
no side effect at all; on a disabled agent it sets and persists the enabled
flag, registers the probe hooks and the task observer exactly once each, and
resets the task window to its unset value, realised as the timestamp 0
(`task_start_time_ = 0`); it is idempotent — a second `enable` changes
nothing — so from a fresh agent two consecutive `enable` calls leave both
registration counts at exactly 1. -/
theorem enable_idempotent (s : AgentState) :
    (enable s).2 = Response.OK ∧
      (s.enabled_ = true → enable s = (s, Response.OK)) ∧
      (s.enabled_ = false →
        (enable s).1 =
          { s with
              enabled_ := true
              persistedEnabled := true
              hookRegistrations := s.hookRegistrations + 1
              observerRegistrations := s.observerRegistrations + 1
              task_start_time_ := 0 }) ∧
      enable (enable s).1 = ((enable s).1, Response.OK) ∧
      (enable (enable initialAgent).1).1.hookRegistrations = 1 ∧
      (enable (enable initialAgent).1).1.observerRegistrations = 1 := by
  have h1 : (enable s).1.enabled_ = true := by
    cases hs : s.enabled_ <;> simp [enable, hs]
  refine ⟨?_, ?_, ?_, ?_, by decide, by decide⟩
  · cases hs : s.enabled_ <;> simp [enable, hs]
  · intro hs; simp [enable, hs]
  · intro hs; simp [enable, hs]
  · conv_lhs => rw [enable]
    simp [h1]

/-- Witness for C8 on a fresh agent: already-enabled `enable` is a no-op and
the effect of the first `enable` is exactly as stated. -/
theorem enable_idempotent_witness :
    (enable initialAgent).1.enabled_ = true ∧
      enable (enable initialAgent).1 = ((enable initialAgent).1, Response.OK) ∧
      initialAgent.enabled_ = false ∧
      (enable initialAgent).1 =
        { initialAgent with
            enabled_ := true
            persistedEnabled := true
            hookRegistrations := initialAgent.hookRegistrations + 1
            observerRegistrations := initialAgent.observerRegistrations + 1
            task_start_time_ := 0 } :=
  ⟨rfl, (enable_idempotent initialAgent).2.2.2.1, rfl,
    (enable_idempotent initialAgent).2.2.1 rfl⟩

/-- C9: `disable` always reports success; it never touches any category
counter — counts, durations, depth counters — nor the task duration, and
those totals also survive a full disable/enable cycle; on an already
disabled agent it changes no state at all. -/
theorem disable_preserves_counters (s : AgentState) :
    (disable s).2 = Response.OK ∧
      (s.enabled_ = false → disable s = (s, Response.OK)) ∧
      ((disable s).1.layout_count_ = s.layout_count_ ∧
        (disable s).1.recalc_style_count_ = s.recalc_style_count_ ∧
        (disable s).1.layout_duration_ = s.layout_duration_ ∧
        (disable s).1.recalc_style_duration_ = s.recalc_style_duration_ ∧
        (disable s).1.script_duration_ = s.script_duration_ ∧
        (disable s).1.task_duration_ = s.task_duration_ ∧
        (disable s).1.script_call_depth_ = s.script_call_depth_ ∧
        (disable s).1.layout_depth_ = s.layout_depth_) ∧
      ((enable (disable s).1).1.layout_count_ = s.layout_count_ ∧
        (enable (disable s).1).1.recalc_style_count_ = s.recalc_style_count_ ∧
        (enable (disable s).1).1.layout_duration_ = s.layout_duration_ ∧
        (enable (disable s).1).1.recalc_style_duration_ = s.recalc_style_duration_ ∧
        (enable (disable s).1).1.script_duration_ = s.script_duration_ ∧
        (enable (disable s).1).1.task_duration_ = s.task_duration_) := by
  have hd : (disable s).1.enabled_ = false := by
    cases hs : s.enabled_ <;> simp [disable, hs]
  refine ⟨?_, ?_, ?_, ?_⟩
  · cases hs : s.enabled_ <;> simp [disable, hs]
  · intro hs; simp [disable, hs]
  · cases hs : s.enabled_ <;> simp [disable, hs]
  · cases hs : s.enabled_ <;> simp [enable, disable, hs]

/-- Witness for C9 on a state with non-zero totals: disabling an enabled
agent that has accumulated layout count 3 and task duration 7 keeps both,
and they are still there after re-enabling. -/
theorem disable_preserves_counters_witness :
    ({ (enable initialAgent).1 with layout_count_ := 3, task_duration_ := 7 }.enabled_
        = false → False) ∧
      (disable { (enable initialAgent).1 with
          layout_count_ := 3, task_duration_ := 7 }).1.layout_count_ = 3 ∧
      (disable { (enable initialAgent).1 with
          layout_count_ := 3, task_duration_ := 7 }).1.task_duration_ = 7 ∧
      (enable (disable { (enable initialAgent).1 with
          layout_count_ := 3, task_duration_ := 7 }).1).1.layout_count_ = 3 ∧
      (enable (disable { (enable initialAgent).1 with
          layout_count_ := 3, task_duration_ := 7 }).1).1.task_duration_ = 7 :=
  ⟨fun h => by simp [enable, initialAgent] at h,
    (disable_preserves_counters { (enable initialAgent).1 with
      layout_count_ := 3, task_duration_ := 7 }).2.2.1.1,
    (disable_preserves_counters { (enable initialAgent).1 with
      layout_count_ := 3, task_duration_ := 7 }).2.2.1.2.2.2.2.2.1,
    (disable_preserves_counters { (enable initialAgent).1 with
      layout_count_ := 3, task_duration_ := 7 }).2.2.2.1,
    (disable_preserves_counters { (enable initialAgent).1 with
      layout_count_ := 3, task_duration_ := 7 }).2.2.2.2.2.2.2.2⟩

/-- C10: the transition from disabled to enabled stores the plain numeric
value 0 in `task_start_time_` — there is no distinct "unset" sentinel — so a
task end event `DidProcessTask(0, t)` arriving with no preceding task begin
event passes the pairing check against 0 and adds `t - 0` to the task
duration. -/
theorem enable_task_window_is_zero (s : AgentState) (t : ℚ) (h : s.enabled_ = false) :
    (enable s).1.task_start_time_ = 0 ∧
      didProcessTask (enable s).1 0 t =
        { (enable s).1 with task_duration_ := (enable s).1.task_duration_ + (t - 0) } := by
  have h1 : (enable s).1.task_start_time_ = 0 := by simp [enable, h]
  exact ⟨h1, by rw [didProcessTask, if_pos h1]⟩

/-- Witness for C10: enabling a fresh agent and delivering
`DidProcessTask(0, 5)` with no task begin yields task duration 5. -/
theorem enable_task_window_is_zero_witness :
    initialAgent.enabled_ = false ∧
      (enable initialAgent).1.task_start_time_ = 0 ∧
      didProcessTask (enable initialAgent).1 0 5 =
        { (enable initialAgent).1 with
            task_duration_ := (enable initialAgent).1.task_duration_ + (5 - 0) } :=
  ⟨rfl, (enable_task_window_is_zero initialAgent 5 rfl).1,
    (enable_task_window_is_zero initialAgent 5 rfl).2⟩
